import Mathlib

/-!
Verification of the PayPal capture-payment backend (`src/main.py`).

The service is a single FastAPI endpoint `capture_payment` that
  1. validates the request,
  2. obtains an OAuth token from PayPal,
  3. captures the order,
  4. verifies the returned status is "COMPLETED",
  5. extracts payment details from the dynamic JSON response,
  6. best-effort persists a donation record in Supabase,
  7. returns a success response.

The shallow embedding below models the dynamic JSON values the handler
manipulates, the Python dictionary/list/attribute semantics it relies on
(including the exceptions raised on ill-shaped data), the `requests`
call outcomes as an oracle environment, and the nested try/except
structure of the handler.  Machine-level details that no claim touches
(clock values, float arithmetic on the donation amount) are modelled as
oracle inputs / integers.
-/

/-- A JSON value, as produced by `Response.json()` in the source.
Numbers are modelled as integers: no claim performs arithmetic on a
JSON number, only truthiness tests. -/
inductive Json where
  | null : Json
  | bool (b : Bool) : Json
  | num (n : Int) : Json
  | str (s : String) : Json
  | arr (elems : List Json) : Json
  | obj (fields : List (String × Json)) : Json
deriving Inhabited

/-- The Python type name of a JSON value, as it appears in Python error
messages. -/
def Json.pyTypeName : Json → String
  | .null => "NoneType"
  | .bool _ => "bool"
  | .num _ => "int"
  | .str _ => "str"
  | .arr _ => "list"
  | .obj _ => "dict"

/-- Python `isinstance(j, dict)`. -/
def Json.isDict : Json → Bool
  | .obj _ => true
  | _ => false

/-- Python truthiness of a JSON value (`if x:`). -/
def Json.truthy : Json → Bool
  | .null => false
  | .bool b => b
  | .num n => n != 0
  | .str s => !s.isEmpty
  | .arr es => !es.isEmpty
  | .obj fs => !fs.isEmpty

/-- Python equality of a JSON value against a string literal: only a
string equals a string. -/
def Json.eqStr (j : Json) (s : String) : Bool :=
  match j with
  | .str t => t == s
  | _ => false

mutual

/-- Python `repr(j)` of a JSON value in Python (used when a non-string value is
interpolated into an f-string inside a container). -/
def Json.reprStr : Json → String
  | .null => "None"
  | .bool true => "True"
  | .bool false => "False"
  | .num n => toString n
  | .str s => "\x27" ++ s ++ "\x27"
  | .arr es => "[" ++ String.intercalate ", " (Json.reprList es) ++ "]"
  | .obj fs => "\x7b" ++ String.intercalate ", " (Json.reprFields fs) ++ "\x7d"

/-- Python `repr` of each element of a list. -/
def Json.reprList : List Json → List String
  | [] => []
  | j :: js => Json.reprStr j :: Json.reprList js

/-- Python `repr` of each `key: value` entry of a dict. -/
def Json.reprFields : List (String × Json) → List String
  | [] => []
  | (k, v) :: fs => ("\x27" ++ k ++ "\x27: " ++ Json.reprStr v) :: Json.reprFields fs

end

/-- Python `str(j)` of a JSON value in Python (f-string interpolation). -/
def Json.pyStr : Json → String
  | .str s => s
  | j => j.reprStr

/-- A Python exception, carrying its rendered `str(e)` message. -/
inductive PyErr where
  | valueError (msg : String) : PyErr
  | keyError (msg : String) : PyErr
  | typeError (msg : String) : PyErr
  | attributeError (msg : String) : PyErr
  | indexError (msg : String) : PyErr
  /-- Python `requests.exceptions.JSONDecodeError`: a subclass of both
  `ValueError` and `RequestException` (requests >= 2.27). -/
  | requestsJsonDecode (msg : String) : PyErr
  /-- An exception raised by the Supabase store client, re-raised by the
  persistence code. -/
  | storeError (msg : String) : PyErr

/-- Python `str(e)` for an exception. -/
def PyErr.str : PyErr → String
  | .valueError m => m
  | .keyError m => m
  | .typeError m => m
  | .attributeError m => m
  | .indexError m => m
  | .requestsJsonDecode m => m
  | .storeError m => m

/-- Python `type(e).__name__`. -/
def PyErr.typeName : PyErr → String
  | .valueError _ => "ValueError"
  | .keyError _ => "KeyError"
  | .typeError _ => "TypeError"
  | .attributeError _ => "AttributeError"
  | .indexError _ => "IndexError"
  | .requestsJsonDecode _ => "JSONDecodeError"
  | .storeError _ => "Exception"

/-- Membership in the `except (ValueError, KeyError, TypeError)` tuple
of the capture-error handler (line 354). -/
def PyErr.isVKT : PyErr → Bool
  | .valueError _ => true
  | .keyError _ => true
  | .typeError _ => true
  | .requestsJsonDecode _ => true
  | _ => false

/-- Python `isinstance(e, requests.exceptions.RequestException)` for the
exceptions our model can raise. -/
def PyErr.isRequestException : PyErr → Bool
  | .requestsJsonDecode _ => true
  | _ => false

/-- Python `d.get(k, default)` where `d` is statically known to be a dict
(never raises). -/
def Json.getD (j : Json) (k : String) (dflt : Json) : Json :=
  match j with
  | .obj fs => (fs.lookup k).getD dflt
  | _ => dflt

/-- Python `x.get(k, default)` on an arbitrary value: a non-dict raises
`AttributeError`. -/
def pyGet (j : Json) (k : String) (dflt : Json) : Except PyErr Json :=
  match j with
  | .obj fs => .ok ((fs.lookup k).getD dflt)
  | _ => .error (.attributeError
      ("\x27" ++ j.pyTypeName ++ "\x27 object has no attribute \x27get\x27"))

/-- Python `x[0]` on an arbitrary value, with Python subscript semantics. -/
def pySub0 : Json → Except PyErr Json
  | .arr [] => .error (.indexError "list index out of range")
  | .arr (x :: _) => .ok x
  | .str s =>
    match s.toList with
    | [] => .error (.indexError "string index out of range")
    | c :: _ => .ok (.str (String.mk [c]))
  | .obj _ => .error (.keyError "0")
  | .null => .error (.typeError "\x27NoneType\x27 object is not subscriptable")
  | .bool _ => .error (.typeError "\x27bool\x27 object is not subscriptable")
  | .num _ => .error (.typeError "\x27int\x27 object is not subscriptable")

/-- Python `for d in x:` — what Python iterates over, or `TypeError`. -/
def pyIter : Json → Except PyErr (List Json)
  | .arr es => .ok es
  | .str s => .ok (s.toList.map (fun c => Json.str (String.mk [c])))
  | .obj fs => .ok (fs.map (fun kv => Json.str kv.1))
  | j => .error (.typeError ("\x27" ++ j.pyTypeName ++ "\x27 object is not iterable"))

/-- Python `v += suffix` where `suffix` is a string: raises `TypeError` when
`v` is not a string. -/
def pyAddStr (v : Json) (suffix : String) : Except PyErr Json :=
  match v with
  | .str s => .ok (.str (s ++ suffix))
  | _ => .error (.typeError
      ("unsupported operand type(s) for +=: \x27" ++ v.pyTypeName ++ "\x27 and \x27str\x27"))

/-- Elements of a list when all are strings (`str.join` succeeds). -/
def allStrs : List Json → Option (List String)
  | [] => some []
  | .str s :: rest =>
    match allStrs rest with
    | some ss => some (s :: ss)
    | none => none
  | _ :: _ => none

/-- Python `sep.join(items)`: raises `TypeError` when an item is not a string. -/
def pyJoin (sep : String) (items : List Json) : Except PyErr String :=
  match allStrs items with
  | some ss => .ok (String.intercalate sep ss)
  | none => .error (.typeError "sequence item: expected str instance")

/-- Python `s.lower()`. -/
def strLower (s : String) : String := String.mk (s.toList.map Char.toLower)

/-- Substring occurrence over character lists. -/
def strContainsList (pat : List Char) : List Char → Bool
  | [] => List.isPrefixOf pat []
  | c :: cs => List.isPrefixOf pat (c :: cs) || strContainsList pat cs

/-- Python `pat in s` (substring test). -/
def strContains (s pat : String) : Bool := strContainsList pat.toList s.toList

/-- Whitespace for `str.strip()`. -/
def pyIsWs (c : Char) : Bool :=
  c == ' ' || c == '\t' || c == '\n' || c == '\r' || c.toNat == 11 || c.toNat == 12

/-- Python `s.strip()`. -/
def pyStrip (s : String) : String :=
  String.mk (((s.toList.dropWhile pyIsWs).reverse.dropWhile pyIsWs).reverse)

/-- Python `s[:n]`. -/
def strTake (s : String) (n : Nat) : String := s.take n

/-- Python `s[-n:]`. -/
def strLastN (n : Nat) (s : String) : String := s.drop (s.length - n)

/-- Python `s.zfill(n)`. -/
def zfill (n : Nat) (s : String) : String :=
  if n ≤ s.length then s else String.mk (List.replicate (n - s.length) (Char.ofNat 48)) ++ s

/-- Truthiness of an `Optional[str]` field (`if x:`): `None` and the
empty string are falsy. -/
def optStrTruthy : Option String → Bool
  | some s => !s.isEmpty
  | none => false

/-! ## Data model (request/response models of `src/main.py`) -/

/-- Python `DonationData` (pydantic model, lines 79-85).  `amount: float` is
modelled as an integer: the handler never computes with it, it is only
copied into the stored record. -/
structure DonationData where
  amount : Int
  donorName : String
  donorEmail : Option String := none
  donorAddress : Option String := none
  donationType : String
  userId : Option String := none

/-- Python `CapturePaymentRequest` (lines 87-89).  After pydantic validation
`orderId` is always a string; an empty string is the handler-level
representation of a missing order id (`if not request.orderId`). -/
structure CaptureRequest where
  orderId : String
  donationData : Option DonationData := none

/-- The `amount` sub-dict of the extracted payment details.  Values stay
dynamic (`Json`): the source copies whatever the provider returned. -/
structure AmountDetails where
  value : Json
  currency : Json
deriving Inhabited

/-- The `payer` sub-dict of the extracted payment details.  `name` is
built by an f-string, hence always a string. -/
structure PayerDetails where
  payerId : Json
  email : Json
  name : String
deriving Inhabited

/-- Python `payment_details` (dict literal at lines 437-454). -/
structure PaymentDetails where
  orderId : Json
  captureId : Json
  transactionId : Json
  status : Json
  amount : AmountDetails
  payer : PayerDetails
  createTime : Json
  updateTime : Json
  fullResponse : Json
deriving Inhabited

/-- Python `CapturePaymentResponse` (lines 102-106). -/
structure CaptureResponse where
  success : Bool
  payment : PaymentDetails
  donation : Option Json
  message : String

/-! ## Field Mapper (lines 432-454)

Each helper mirrors one line of the extraction code, with Python
exception semantics made explicit in `Except PyErr`. -/

/-- Line 433:
`purchase_unit = order.get("purchase_units", [{}])[0] if isinstance(order, dict) else {}`. -/
def getPurchaseUnit (order : Json) : Except PyErr Json :=
  if order.isDict then pySub0 (order.getD "purchase_units" (Json.arr [Json.obj []]))
  else .ok (Json.obj [])

/-- Line 434:
`capture = purchase_unit.get("payments", {}).get("captures", [{}])[0] if isinstance(purchase_unit, dict) else {}`.
The inner `.get("captures", ...)` is applied to whatever `payments` is,
so a non-dict `payments` raises `AttributeError`. -/
def getCapture (pu : Json) : Except PyErr Json :=
  if pu.isDict then
    match pyGet (pu.getD "payments" (Json.obj [])) "captures" (Json.arr [Json.obj []]) with
    | .error e => .error e
    | .ok caps => pySub0 caps
  else .ok (Json.obj [])

/-- Lines 443-444: the amount fields.
`capture.get("amount", {}).get(key, dflt) if isinstance(capture, dict) else purchase_unit.get("amount", {}).get(key, dflt) if isinstance(purchase_unit, dict) else dflt`.
Note the fallback to the purchase unit happens only when `capture` is
not a dict; the second `.get` can raise when `amount` is not a dict. -/
def getAmountField (capture pu : Json) (key dflt : String) : Except PyErr Json :=
  if capture.isDict then pyGet (capture.getD "amount" (Json.obj [])) key (Json.str dflt)
  else if pu.isDict then pyGet (pu.getD "amount" (Json.obj [])) key (Json.str dflt)
  else .ok (Json.str dflt)

/-- Line 449: the payer display name.
`f"{payer.get('name', {}).get('given_name', '')} {payer.get('name', {}).get('surname', '')}".strip() if isinstance(payer, dict) and payer.get("name") else ""`.
A truthy non-dict `name` raises `AttributeError` at the inner `.get`. -/
def getPayerName (payer : Json) : Except PyErr String :=
  if payer.isDict && (payer.getD "name" Json.null).truthy then
    match pyGet (payer.getD "name" (Json.obj [])) "given_name" (Json.str "") with
    | .error e => .error e
    | .ok gn =>
      match pyGet (payer.getD "name" (Json.obj [])) "surname" (Json.str "") with
      | .error e => .error e
      | .ok sn => .ok (pyStrip (gn.pyStr ++ " " ++ sn.pyStr))
  else .ok ""

/-- The Field Mapper: lines 433-454 of `capture_payment`.  The exception
sequencing follows the Python evaluation order of the dict literal. -/
def extractPaymentDetails (order status : Json) : Except PyErr PaymentDetails :=
  match getPurchaseUnit order with
  | .error e => .error e
  | .ok pu =>
    match getCapture pu with
    | .error e => .error e
    | .ok capture =>
      let payer := if order.isDict then order.getD "payer" (Json.obj []) else Json.obj []
      match getAmountField capture pu "value" "0" with
      | .error e => .error e
      | .ok av =>
        match getAmountField capture pu "currency_code" "USD" with
        | .error e => .error e
        | .ok ac =>
          match getPayerName payer with
          | .error e => .error e
          | .ok pn =>
            .ok { orderId := if order.isDict then order.getD "id" (Json.str "") else Json.str order.pyStr
                , captureId := if capture.isDict then capture.getD "id" (Json.str "") else Json.str ""
                , transactionId := if capture.isDict then capture.getD "id" (Json.str "") else Json.str ""
                , status := status
                , amount := { value := av, currency := ac }
                , payer := { payerId := if payer.isDict then payer.getD "payer_id" (Json.str "") else Json.str ""
                           , email := if payer.isDict then payer.getD "email_address" (Json.str "") else Json.str ""
                           , name := pn }
                , createTime := if capture.isDict then capture.getD "create_time" (Json.str "")
                                else if order.isDict then order.getD "create_time" (Json.str "") else Json.str ""
                , updateTime := if capture.isDict then capture.getD "update_time" (Json.str "")
                                else if order.isDict then order.getD "update_time" (Json.str "") else Json.str ""
                , fullResponse := order }

/-! ## HTTP boundary types -/

/-- A FastAPI `HTTPException`: status code, `detail` message, optional
response headers. -/
structure HTTPError where
  status : Nat
  detail : String
  headers : List (String × String) := []

/-- An exception flowing through the handler: either a deliberately
raised typed `HTTPException` or an untyped Python exception. -/
inductive Exc where
  | http (e : HTTPError) : Exc
  | py (e : PyErr) : Exc

/-- Outcome of a `requests.post` call, as an oracle.  A `resp` carries
the HTTP status, the raw `response.text`, and the result of
`response.json()` (`Except.error m` when the body does not parse, with
`m` the decode-error message). -/
inductive HttpOutcome where
  | timeout : HttpOutcome
  | connError (msg : String) : HttpOutcome
  | reqError (msg : String) : HttpOutcome
  | resp (status : Nat) (text : String) (body : Except String Json) : HttpOutcome

/-- Python `response.ok` in requests: true iff `status_code < 400`. -/
def httpOk (status : Nat) : Bool := status < 400

/-- An observable outbound call made by the handler. -/
inductive ExtCall where
  | tokenRequest : ExtCall
  | captureRequest (orderId : String) : ExtCall
  | insertDonation (record : List (String × Json)) : ExtCall

/-- The environment the handler runs against: configuration read from
the process environment, the oracle outcomes of the two PayPal calls,
the behavior of the Supabase insert, and the clock values used to
generate identifiers.  Empty strings model unset environment
variables (both are falsy in the source's checks). -/
structure Env where
  supabaseModule : Bool
  paypalClientId : String
  paypalSecret : String
  paypalEnvironment : String := "sandbox"
  supabaseUrl : String
  supabaseKey : String
  authOutcome : HttpOutcome
  captureOutcome : HttpOutcome
  storeInsert : List (String × Json) → Except String Json
  tsSec : Nat
  tsMs : Nat
  year : Nat

/-! ## Upstream capture-error mapping (lines 300-368) -/

/-- The per-detail loop body (lines 329-337).  `d.get` raises
`AttributeError` when a detail entry is not a dict; `detail_str` can be
the raw non-string `issue` value, making the later `+=` raise
`TypeError`. -/
def detailStrOf (d : Json) : Except PyErr (Option Json) :=
  match pyGet d "issue" (Json.str "") with
  | .error e => .error e
  | .ok issue =>
    match pyGet d "description" (Json.str "") with
    | .error e => .error e
    | .ok description =>
      match pyGet d "field" (Json.str "") with
      | .error e => .error e
      | .ok field =>
        if issue.truthy || description.truthy then
          let ds : Json := if field.truthy then Json.str (field.pyStr ++ ": " ++ issue.pyStr) else issue
          if description.truthy then
            match pyAddStr ds (" - " ++ description.pyStr) with
            | .error e => .error e
            | .ok ds2 => .ok (some ds2)
          else .ok (some ds)
        else .ok none

/-- The accumulated `detail_list` (lines 328-337). -/
def detailListOf : List Json → Except PyErr (List Json)
  | [] => .ok []
  | d :: ds =>
    match detailStrOf d with
    | .error e => .error e
    | .ok none => detailListOf ds
    | .ok (some s) =>
      match detailListOf ds with
      | .error e => .error e
      | .ok rest =>
        .ok (s :: rest)

/-- Lines 317-321: `detail_parts`. -/
def detailPartsOf (errorName errorMessage : Json) : List Json :=
  (if errorName.truthy then [errorName] else [])
    ++ (if errorMessage.truthy && !(errorMessage.eqStr "Unknown error") then [errorMessage] else [])

/-- Lines 323-325: the base message, joining the parts (`str.join`
raises `TypeError` on non-string parts). -/
def detailMsgBase (detailParts : List Json) : Except PyErr String :=
  if detailParts.isEmpty then .ok "PayPal API Error"
  else
    match pyJoin " - " detailParts with
    | .error e => .error e
    | .ok joined => .ok ("PayPal API Error: " ++ joined)

/-- Lines 327-339: iterate `error_details` and append the per-detail
segments. -/
def detailMsgWithDetails (dmA : String) (errorDetails : Json) : Except PyErr String :=
  if errorDetails.truthy then
    match pyIter errorDetails with
    | .error e => .error e
    | .ok items =>
      match detailListOf items with
      | .error e => .error e
      | .ok dl =>
        if dl.isEmpty then .ok dmA
        else
          match pyJoin "; " dl with
          | .error e => .error e
          | .ok joined => .ok (dmA ++ " (" ++ joined ++ ")")
  else .ok dmA

/-- Lines 310-353: build the detailed error message from a JSON error
body and raise `HTTPException(min(status, 500), detail_msg)`.  Errors
escape to the surrounding handlers.  The `getD` calls after the first
`pyGet` cannot raise because `error_data` is then known to be a dict. -/
def buildJsonErrMsg (s : Nat) (errorText : String) (errorData : Json) : Except PyErr HTTPError :=
  match pyGet errorData "message" (Json.str "") with
  | .error e => .error e
  | .ok m1 =>
    let errorMessage :=
      if m1.truthy then m1
      else
        let m2 := errorData.getD "error" (Json.str "")
        if m2.truthy then m2 else Json.str "Unknown error"
    let errorName := errorData.getD "name" (Json.str "")
    let errorDetails := errorData.getD "details" (Json.arr [])
    let debugId := errorData.getD "debug_id" (Json.str "")
    match detailMsgBase (detailPartsOf errorName errorMessage) with
    | .error e => .error e
    | .ok detailMsgA =>
      match detailMsgWithDetails detailMsgA errorDetails with
      | .error e => .error e
      | .ok detailMsgB =>
        let detailMsgC :=
          if debugId.truthy then detailMsgB ++ " [Debug ID: " ++ debugId.pyStr ++ "]" else detailMsgB
        let detailMsgD :=
          if detailMsgC == "PayPal API Error" || (pyStrip detailMsgC) == "" then
            "PayPal API returned error (HTTP " ++ toString s ++ "): " ++ strTake errorText 300
          else detailMsgC
        .ok { status := min s 500, detail := detailMsgD, headers := [] }

/-- Lines 360-363: the non-JSON fallback message. -/
def rawFallbackMsg (s : Nat) (errorText : String) : String :=
  if errorText == "" then "PayPal API returned error status " ++ toString s ++ " with no response body"
  else "PayPal API error (HTTP " ++ toString s ++ "): " ++ strTake errorText 500

/-- Lines 300-368: the full mapping of a non-2xx capture response.  A
`ValueError` from `response.json()` and any `ValueError/KeyError/TypeError`
from the message building hit the `except` at line 354 and produce the
raw-body fallback with the same capped status; other exceptions
(`AttributeError` from `.get` on a non-dict) escape as untyped. -/
def captureFailureExc (s : Nat) (text : String) (body : Except String Json) : Exc :=
  match body with
  | .error _ => .http { status := min s 500, detail := rawFallbackMsg s text, headers := [] }
  | .ok errorData =>
    match buildJsonErrMsg s text errorData with
    | .ok h => .http h
    | .error e =>
      if e.isVKT then .http { status := min s 500, detail := rawFallbackMsg s text, headers := [] }
      else .py e

/-! ## Receipt Persister (lines 465-562) -/

/-- Python `donation_id = f"SSLF-{str(int(datetime.now().timestamp()))[-6:]}"` (line 472). -/
def donationIdOf (env : Env) : String := "SSLF-" ++ strLastN 6 (toString env.tsSec)

/-- Python `receipt_number = f"RCP-{year}-{str(int(ts * 1000) % 10000).zfill(4)}"` (line 473). -/
def receiptNumberOf (env : Env) : String :=
  "RCP-" ++ toString env.year ++ "-" ++ zfill 4 (toString (env.tsMs % 10000))

/-- An optional string column, added only when truthy (lines 489-494). -/
def optField (k : String) (v : Option String) : List (String × Json) :=
  match v with
  | some s => if s.isEmpty then [] else [(k, Json.str s)]
  | none => []

/-- The nine always-present columns of `donation_data` /
`minimal_donation_data` (lines 476-486, 523-533). -/
def baseDonationFields (env : Env) (dd : DonationData) (pd : PaymentDetails) : List (String × Json) :=
  [("donation_id", Json.str (donationIdOf env)),
   ("amount", Json.num dd.amount),
   ("donor_name", Json.str dd.donorName),
   ("donation_type", Json.str dd.donationType),
   ("payment_id", pd.captureId),
   ("payment_method", Json.str "PayPal"),
   ("receipt_number", Json.str (receiptNumberOf env)),
   ("status", Json.str "completed"),
   ("currency", Json.str "INR")]

/-- Python `donation_data` with its optional columns (lines 476-494). -/
def donationDataRecord (env : Env) (dd : DonationData) (pd : PaymentDetails) : List (String × Json) :=
  baseDonationFields env dd pd
    ++ optField "user_id" dd.userId
    ++ optField "donor_address" dd.donorAddress
    ++ optField "donor_email" dd.donorEmail

/-- Python `paypal_fields` (lines 498-506).  The `try` around this block cannot
fire: every key read exists in `payment_details`. -/
def paypalFieldsRecord (pd : PaymentDetails) : List (String × Json) :=
  [("paypal_order_id", pd.orderId), ("paypal_capture_id", pd.captureId)]
    ++ (if pd.payer.payerId.truthy then [("paypal_payer_id", pd.payer.payerId)] else [])
    ++ (if pd.fullResponse.truthy then [("paypal_payment_details", pd.fullResponse)] else [])

/-- Python `donation_data_with_paypal = {**donation_data, **paypal_fields}`
(line 512); the key sets are disjoint, so the merge is concatenation. -/
def fullRecord (env : Env) (dd : DonationData) (pd : PaymentDetails) : List (String × Json) :=
  donationDataRecord env dd pd ++ paypalFieldsRecord pd

/-- Python `minimal_donation_data` (lines 523-537): the nine standard columns
plus `user_id` when truthy. -/
def minimalRecord (env : Env) (dd : DonationData) (pd : PaymentDetails) : List (String × Json) :=
  baseDonationFields env dd pd ++ optField "user_id" dd.userId

/-- Lines 552-556: `donation_record` from the insert result
(`result.data[0]` when the data is a truthy list, the data itself when
truthy but not a list, `None` otherwise). -/
def donationRecordOf (resultData : Json) : Option Json :=
  if resultData.truthy then
    some (match resultData with
          | .arr es => es.headD Json.null
          | other => other)
  else none

/-- The body of the persistence `try` (lines 468-556): create the
client, build the records, insert with the missing-column fallback.
Returns the (possibly raised) outcome and the list of insert calls
actually issued. -/
def persistInner (env : Env) (dd : DonationData) (pd : PaymentDetails) :
    Except Exc (Option Json) × List ExtCall :=
  if !env.supabaseModule then
    (.error (.py (.valueError "Supabase package not installed. Install with: pip install -r requirements.txt")), [])
  else if env.supabaseUrl == "" || env.supabaseKey == "" then
    (.error (.py (.valueError "Supabase credentials not configured. Set SUPABASE_URL and SUPABASE_SERVICE_ROLE_KEY")), [])
  else
    let full := fullRecord env dd pd
    match env.storeInsert full with
    | .ok resultData => (.ok (donationRecordOf resultData), [.insertDonation full])
    | .error insertError =>
      let errorStr := strLower insertError
      if strContains errorStr "column" || strContains (strLower errorStr) "pgrst204" then
        let minimal := minimalRecord env dd pd
        match env.storeInsert minimal with
        | .ok resultData => (.ok (donationRecordOf resultData), [.insertDonation full, .insertDonation minimal])
        | .error minimalError =>
          (.error (.http { status := 500
                         , detail := "Database error: " ++ minimalError ++ ". Please check your database schema."
                         , headers := [] }),
           [.insertDonation full, .insertDonation minimal])
      else (.error (.py (.storeError insertError)), [.insertDonation full])

/-- Lines 558-562: every exception from the persistence block (typed or
not) is swallowed and the request continues without a donation record. -/
def persistStep (env : Env) (dd : DonationData) (pd : PaymentDetails) :
    Option Json × List ExtCall :=
  match persistInner env dd pd with
  | (.ok dr, t) => (dr, t)
  | (.error _, t) => (none, t)

/-! ## Capture Orchestrator (lines 167-584) -/

/-- The `except Exception` handler of the capture `try` (lines 401-420):
wrap any other exception as `HTTPException(400, "PayPal capture failed: ...")`,
with a fallback message when `str(e)` is blank. -/
def genericCaptureExc (e : PyErr) : HTTPError :=
  let m := e.str
  let m2 :=
    if (pyStrip m) == "" then
      let base := "PayPal API call failed (" ++ e.typeName ++ ")"
      let args := if m == "" then ([] : List String) else [m]
      base ++ ": " ++ String.intercalate ", " args
    else m
  { status := 400, detail := "PayPal capture failed: " ++ m2, headers := [] }

/-- The body of the inner `try` at lines 222-374: token acquisition,
order capture, status extraction.  Returns `(order_data, status)` and
the outbound calls made. -/
def paypalSectionBody (env : Env) (orderId : String) :
    Except Exc (Json × Json) × List ExtCall :=
  let t0 : List ExtCall := [.tokenRequest]
  match env.authOutcome with
  | .timeout =>
    (.error (.http { status := 500
                   , detail := "PayPal API timeout: Failed to get access token (request timed out after 10 seconds)"
                   , headers := [] }), t0)
  | .connError m =>
    (.error (.http { status := 500
                   , detail := "PayPal API connection error: Unable to connect to PayPal servers. "
                       ++ (if m == "" then "Check your internet connection and PayPal API status." else m)
                   , headers := [] }), t0)
  | .reqError m =>
    (.error (.http { status := 500
                   , detail := "PayPal API request error: "
                       ++ (if m == "" then "Failed to communicate with PayPal API" else m)
                   , headers := [] }), t0)
  | .resp aStatus aText aBody =>
    if !httpOk aStatus then
      let errorText := if aText == "" then "No error details provided" else aText
      (.error (.http { status := 500
                     , detail := "Failed to get PayPal access token (HTTP " ++ toString aStatus ++ "): "
                         ++ strTake errorText 500
                     , headers := [] }), t0)
    else
      match aBody with
      | .error m =>
        -- `auth_response.json()` raised; caught by `except (ValueError, KeyError)` at line 267
        (.error (.http { status := 500, detail := "Invalid PayPal auth response: " ++ m, headers := [] }), t0)
      | .ok authData =>
        match pyGet authData "access_token" Json.null with
        | .error e => (.error (.py e), t0)
        | .ok accessToken =>
          if !accessToken.truthy then
            (.error (.http { status := 500, detail := "PayPal access token not found in response", headers := [] }), t0)
          else
            let t1 := t0 ++ [.captureRequest orderId]
            match env.captureOutcome with
            | .timeout =>
              (.error (.http { status := 500
                             , detail := "PayPal API timeout: Payment capture request timed out after 30 seconds"
                             , headers := [] }), t1)
            | .connError m =>
              (.error (.http { status := 500
                             , detail := "PayPal API connection error: Unable to connect to PayPal servers. "
                                 ++ (if m == "" then "Check your internet connection and PayPal API status." else m)
                             , headers := [] }), t1)
            | .reqError m =>
              (.error (.http { status := 500
                             , detail := "PayPal API request error: "
                                 ++ (if m == "" then "Failed to communicate with PayPal API" else m)
                             , headers := [] }), t1)
            | .resp cStatus cText cBody =>
              if !httpOk cStatus then (.error (captureFailureExc cStatus cText cBody), t1)
              else
                match cBody with
                | .error m =>
                  -- line 370: `capture_response.json()` raised `requests.exceptions.JSONDecodeError`
                  (.error (.py (.requestsJsonDecode m)), t1)
                | .ok orderData =>
                  match pyGet orderData "status" (Json.str "UNKNOWN") with
                  | .error e => (.error (.py e), t1)
                  | .ok status => (.ok (orderData, status), t1)

/-- The `except` clauses of the inner `try` (lines 376-420):
`HTTPException` re-raised as-is; `requests` exceptions mapped to a 500
(only the body-decode error can reach this clause as a `requests`
exception, so the `Timeout/ConnectionError/HTTPError` isinstance arms
are dead); anything else wrapped as 400 by `genericCaptureExc`. -/
def runPaypalSection (env : Env) (orderId : String) :
    Except HTTPError (Json × Json) × List ExtCall :=
  match paypalSectionBody env orderId with
  | (.ok r, t) => (.ok r, t)
  | (.error (.http h), t) => (.error h, t)
  | (.error (.py e), t) =>
    if e.isRequestException then
      (.error { status := 500
              , detail := "PayPal API request failed: " ++ (if e.str == "" then e.typeName ++ " occurred" else e.str)
              , headers := [] }, t)
    else (.error (genericCaptureExc e), t)

/-- The body of the outer `try` (lines 184-572): validation, the PayPal
section, the status check, extraction, persistence, and the success
response. -/
def capturePaymentBody (env : Env) (req : CaptureRequest) :
    Except Exc CaptureResponse × List ExtCall :=
  if req.orderId == "" then
    (.error (.http { status := 400, detail := "Order ID is required", headers := [] }), [])
  else if !env.supabaseModule then
    (.error (.http { status := 500
                   , detail := "Server configuration error: Supabase package not installed. Install with: pip install -r requirements.txt"
                   , headers := [] }), [])
  else if env.paypalClientId == "" || env.paypalSecret == "" then
    -- `_get_paypal_client` raised `ValueError`, caught at line 214
    (.error (.http { status := 500
                   , detail := "PayPal configuration error: PayPal credentials not configured. Set PAYPAL_CLIENT_ID and PAYPAL_SECRET"
                   , headers := [] }), [])
  else
    match runPaypalSection env req.orderId with
    | (.error h, t) => (.error (.http h), t)
    | (.ok (orderData, status), t) =>
      if !(status.eqStr "COMPLETED") then
        -- Line 424: the warning f-string evaluates `order.id` on a dict
        -- (order_data is a dict here, since `.get` succeeded on it), so
        -- an AttributeError is raised before the intended
        -- `HTTPException(400, ..., headers={"X-Payment-Status": status})`
        -- at lines 425-429 is ever reached.
        (.error (.py (.attributeError "\x27dict\x27 object has no attribute \x27id\x27")), t)
      else
        match extractPaymentDetails orderData status with
        | .error e =>
          (.error (.http { status := 500, detail := "Error processing payment details: " ++ e.str, headers := [] }), t)
        | .ok pd =>
          match req.donationData with
          | none =>
            (.ok { success := true, payment := pd, donation := none, message := "Payment captured successfully" }, t)
          | some dd =>
            let (dr, t2) := persistStep env dd pd
            (.ok { success := true, payment := pd, donation := dr, message := "Payment captured successfully" }, t ++ t2)

/-- The endpoint (lines 167-584): the outer `except HTTPException:
raise` / `except Exception` pair.  Typed errors pass through; untyped
ones become `HTTPException(500, f"Internal server error: {str(e)}")`. -/
def capturePaymentF (env : Env) (req : CaptureRequest) :
    Except HTTPError CaptureResponse × List ExtCall :=
  match capturePaymentBody env req with
  | (.ok r, t) => (.ok r, t)
  | (.error (.http h), t) => (.error h, t)
  | (.error (.py e), t) =>
    (.error { status := 500, detail := "Internal server error: " ++ e.str, headers := [] }, t)

/-! ## Claim-side definitions

`claimAmountValue`/`claimAmountCurrency` transcribe the words of claim
C3 ("capture.amount.value when present, otherwise
purchase_unit.amount.value when present, otherwise the default"), to be
compared with the extraction the code performs.
`amendedAmountField` states the fallback rule the code actually
implements, totally.  The `wellFormed`/`tame` predicates isolate the
inputs on which the defensive traversal cannot raise. -/

/-- Nested two-level lookup: `j[k1][k2]` when both levels are objects
and present. -/
def jPath (j : Json) (k1 k2 : String) : Option Json :=
  match j with
  | .obj fs =>
    match fs.lookup k1 with
    | some (.obj gs) => gs.lookup k2
    | _ => none
  | _ => none

/-- The purchase unit as the spec describes it:
`response.purchase_units[0] or {}`. -/
def claimPurchaseUnit (order : Json) : Json :=
  match order.getD "purchase_units" (Json.arr []) with
  | .arr (u :: _) => u
  | _ => Json.obj []

/-- The capture as the spec describes it:
`purchase_unit.payments.captures[0] or {}`. -/
def claimCapture (order : Json) : Json :=
  match ((claimPurchaseUnit order).getD "payments" (Json.obj [])).getD "captures" (Json.arr []) with
  | .arr (c :: _) => c
  | _ => Json.obj []

/-- Claim C3's words for `amount.value`: `capture.amount.value` when
present, else `purchase_unit.amount.value` when present, else `"0"`. -/
def claimAmountValue (order : Json) : Json :=
  match jPath (claimCapture order) "amount" "value" with
  | some v => v
  | none =>
    match jPath (claimPurchaseUnit order) "amount" "value" with
    | some v => v
    | none => Json.str "0"

/-- Claim C3's words for `amount.currency`: `capture.amount.currency_code`
when present, else `purchase_unit.amount.currency_code`, else `"USD"`. -/
def claimAmountCurrency (order : Json) : Json :=
  match jPath (claimCapture order) "amount" "currency_code" with
  | some v => v
  | none =>
    match jPath (claimPurchaseUnit order) "amount" "currency_code" with
    | some v => v
    | none => Json.str "USD"

/-- The amended fallback rule (what the code computes, stated totally):
the traversed capture's `amount[key]` with its default when the capture
is a dict — with no fallback to the purchase unit in that case — and the
purchase unit's `amount[key]` only when the capture is not a dict. -/
def amendedAmountField (capture pu : Json) (key dflt : String) : Json :=
  if capture.isDict then
    match capture.getD "amount" (Json.obj []) with
    | .obj fs => (fs.lookup key).getD (Json.str dflt)
    | _ => Json.str dflt
  else if pu.isDict then
    match pu.getD "amount" (Json.obj []) with
    | .obj fs => (fs.lookup key).getD (Json.str dflt)
    | _ => Json.str dflt
  else Json.str dflt

/-- The `amount` slot of a traversed dict is an object (or absent,
defaulting to one). -/
def wfAmountSlot (x : Json) : Bool :=
  match x.getD "amount" (Json.obj []) with
  | .obj _ => true
  | _ => false

/-- A well-shaped first capture entry: an object whose `amount`, when
present, is an object. -/
def wfCaptureElem (c : Json) : Bool := c.isDict && wfAmountSlot c

/-- A well-shaped first purchase unit: an object whose `payments`
(defaulting to `{}`) is an object, whose `captures` (defaulting to
`[{}]`) is a non-empty array with a well-shaped head. -/
def wfPU (u : Json) : Bool :=
  u.isDict &&
    (match u.getD "payments" (Json.obj []) with
     | .obj pfs =>
       match (pfs.lookup "captures").getD (Json.arr [Json.obj []]) with
       | .arr (c :: _) => wfCaptureElem c
       | _ => false
     | _ => false)

/-- A well-shaped payer slot: when it is an object with a truthy `name`,
the `name` is an object. -/
def wfPayer (p : Json) : Bool :=
  match p with
  | .obj pfs => !((pfs.lookup "name").getD Json.null).truthy || ((pfs.lookup "name").getD Json.null).isDict
  | _ => true

/-- A capture response on which the extraction's traversal is
well-shaped: an object whose `purchase_units` (defaulting to `[{}]`) is
a non-empty array with a well-shaped head, and whose `payer` slot is
well-shaped. -/
def wellFormedOrder (order : Json) : Bool :=
  match order with
  | .obj fs =>
    (match (fs.lookup "purchase_units").getD (Json.arr [Json.obj []]) with
     | .arr (u :: _) => wfPU u
     | _ => false)
      && wfPayer ((fs.lookup "payer").getD (Json.obj []))
  | _ => false

/-- Both traversed `amount` slots carry neither `value` nor
`currency_code` (the "source amount fields are absent" condition of
claim C2). -/
def amountKeysAbsent (x : Json) : Bool :=
  match x.getD "amount" (Json.obj []) with
  | .obj afs => (afs.lookup "value").isNone && (afs.lookup "currency_code").isNone
  | _ => false

/-- No amount fields anywhere along the traversed path. -/
def noSourceAmount (order : Json) : Bool :=
  match order with
  | .obj fs =>
    match (fs.lookup "purchase_units").getD (Json.arr [Json.obj []]) with
    | .arr (u :: _) =>
      amountKeysAbsent u &&
        (match u.getD "payments" (Json.obj []) with
         | .obj pfs =>
           match (pfs.lookup "captures").getD (Json.arr [Json.obj []]) with
           | .arr (c :: _) => amountKeysAbsent c
           | _ => false
         | _ => false)
    | _ => false
  | _ => false

/-- A `details` value whose per-entry loop cannot raise an
`AttributeError`: falsy, or a list of dicts, or not iterable at all
(the resulting `TypeError` is caught by the tuple handler). -/
def detailsTame (dts : Json) : Bool :=
  if !dts.truthy then true
  else
    match dts with
    | .arr es => es.all Json.isDict
    | .obj _ => false
    | .str _ => false
    | _ => true

/-- A capture error body on which the message building cannot raise an
`AttributeError`: unparseable (handled by the tuple handler), or a dict
with tame `details`. -/
def captureBodyTame : Except String Json → Bool
  | .error _ => true
  | .ok ed => ed.isDict && detailsTame (ed.getD "details" (Json.arr []))

/-! ## Helper lemmas -/

/-- Python equality with a string literal holds exactly for that string
value. -/
theorem Json.eqStr_true {j : Json} {s : String} (h : j.eqStr s = true) : j = Json.str s := by
  cases j <;> simp [Json.eqStr] at h
  simp [h]

/-- A successful extraction stores the raw response verbatim in
`fullResponse`. -/
theorem extract_ok_fullResponse (order status : Json) (pd : PaymentDetails)
    (h : extractPaymentDetails order status = .ok pd) : pd.fullResponse = order := by
  unfold extractPaymentDetails at h
  rcases hpu : getPurchaseUnit order with e | pu
  · simp [hpu] at h
  simp only [hpu] at h
  rcases hc : getCapture pu with e | capture
  · simp [hc] at h
  simp only [hc] at h
  rcases hav : getAmountField capture pu "value" "0" with e | av
  · simp [hav] at h
  simp only [hav] at h
  rcases hac : getAmountField capture pu "currency_code" "USD" with e | ac
  · simp [hac] at h
  simp only [hac] at h
  rcases hpn : getPayerName (if order.isDict then order.getD "payer" (Json.obj []) else Json.obj []) with e | pn
  · simp [hpn] at h
  simp only [hpn, Except.ok.injEq] at h
  subst h
  rfl

/-! ## C1 — status verification (code bug)

The source intends `HTTPException(400, f"Payment not completed. Status: {status}", headers={"X-Payment-Status": status})`
(lines 425-429), but the `logger.warning` f-string on line 424
evaluates `order.id` on a dict first, raising `AttributeError`, so the
endpoint instead returns the generic 500 wrapper. -/

/-- Environment for C1: credentials present, auth succeeds, capture
returns 2xx with `status = "PENDING"`. -/
def envC1 : Env :=
  { supabaseModule := true, paypalClientId := "client", paypalSecret := "secret",
    supabaseUrl := "https://db.example", supabaseKey := "service-key",
    authOutcome := .resp 200 "authbody" (.ok (Json.obj [("access_token", Json.str "tok")])),
    captureOutcome := .resp 200 "capbody" (.ok (Json.obj [("status", Json.str "PENDING")])),
    storeInsert := fun _ => .error "unused",
    tsSec := 1700000000, tsMs := 1700000000000, year := 2024 }

/-- C1: on a 2xx capture whose status is "PENDING" (not "COMPLETED"),
the endpoint does NOT return 400 with an `X-Payment-Status` header as
the claim states: `order.id` on line 424 raises `AttributeError` before
the intended `HTTPException`, and the caller receives the generic
500 "Internal server error: \x27dict\x27 object has no attribute \x27id\x27"
with no headers. -/
theorem c1_status_check_hits_attribute_error :
    (capturePaymentF envC1 { orderId := "ORDER1" }).1 =
      .error { status := 500
             , detail := "Internal server error: \x27dict\x27 object has no attribute \x27id\x27"
             , headers := [] } := rfl

/-! ## C2 — Field Mapper totality (corrected) -/

/-- C2 counterexample: the Field Mapper is not total.  On
`{"purchase_units": []}` — an input the claim explicitly includes — the
subscript `order.get("purchase_units", [{}])[0]` raises `IndexError`. -/
theorem c2_counterexample_empty_purchase_units :
    extractPaymentDetails (Json.obj [("purchase_units", Json.arr [])]) (Json.str "COMPLETED") =
      .error (.indexError "list index out of range") := rfl

/-! ## C3 — amount fallback (corrected) -/

/-- The input refuting C3: the purchase unit has an amount, the capture
entry does not. -/
def orderC3 : Json :=
  Json.obj [("purchase_units", Json.arr
    [Json.obj [("amount", Json.obj [("value", Json.str "7"), ("currency_code", Json.str "EUR")])]])]

/-- C3 counterexample: the claim's fallback rule gives `"7"`/`"EUR"`
(the purchase unit's amount, since the capture has none), but the code
returns the defaults `"0"`/`"USD"`, because the traversed capture is a
dict (`{}`) and the purchase-unit fallback is only consulted when the
capture is not a dict. -/
theorem c3_counterexample_no_purchase_unit_fallback :
    (extractPaymentDetails orderC3 (Json.str "COMPLETED")).map (fun pd => (pd.amount.value, pd.amount.currency)) =
        .ok (Json.str "0", Json.str "USD") ∧
      claimAmountValue orderC3 = Json.str "7" ∧
      claimAmountCurrency orderC3 = Json.str "EUR" :=
  ⟨rfl, rfl, rfl⟩

/-! ## C5 — outer error handling (corrected) -/

/-- Environment for the C5 counterexample: the token endpoint returns
2xx with a JSON array body, so `auth_data.get("access_token")` raises
an uncaught `AttributeError` inside the capture step. -/
def envC5 : Env :=
  { supabaseModule := true, paypalClientId := "client", paypalSecret := "secret",
    supabaseUrl := "https://db.example", supabaseKey := "service-key",
    authOutcome := .resp 200 "[]" (.ok (Json.arr [])),
    captureOutcome := .resp 200 "" (.ok (Json.obj [])),
    storeInsert := fun _ => .error "unused",
    tsSec := 1700000000, tsMs := 1700000000000, year := 2024 }

/-- C5 counterexample: an uncaught, untyped error (here an
`AttributeError` while reading the access token) is NOT mapped to a 500
internal error: the capture step's own `except Exception` handler
(line 401) wraps it as `HTTPException(400, "PayPal capture failed: ...")`. -/
theorem c5_counterexample_uncaught_mapped_to_400 :
    (capturePaymentF envC5 { orderId := "O1" }).1 =
      .error { status := 400
             , detail := "PayPal capture failed: \x27list\x27 object has no attribute \x27get\x27"
             , headers := [] } := rfl

/-- C5 amended: at the endpoint's outer boundary (lines 574-584), a
typed `HTTPException` raised by any step passes through unchanged, and
an untyped exception reaching the boundary is wrapped as
`HTTPException(500, "Internal server error: " + str(e))`.  (Untyped
errors raised inside the capture step do not reach this boundary: they
are wrapped by that step's own handlers, as the counterexample shows.) -/
theorem c5_amended_outer_boundary (env : Env) (req : CaptureRequest) :
    (∀ h t, capturePaymentBody env req = (.error (.http h), t) →
        (capturePaymentF env req).1 = .error h) ∧
      (∀ e t, capturePaymentBody env req = (.error (.py e), t) →
        (capturePaymentF env req).1 =
          .error { status := 500, detail := "Internal server error: " ++ e.str, headers := [] }) := by
  constructor
  · intro h t hx
    simp [capturePaymentF, hx]
  · intro e t hx
    simp [capturePaymentF, hx]

/-- Environment for the C5 witness: the status-check `AttributeError`
(an untyped error outside the capture step's handlers) reaches the
outer boundary. -/
def envC5w : Env :=
  { supabaseModule := true, paypalClientId := "client", paypalSecret := "secret",
    supabaseUrl := "https://db.example", supabaseKey := "service-key",
    authOutcome := .resp 200 "authbody" (.ok (Json.obj [("access_token", Json.str "tok")])),
    captureOutcome := .resp 200 "capbody" (.ok (Json.obj [("status", Json.str "APPROVED")])),
    storeInsert := fun _ => .error "unused",
    tsSec := 1700000000, tsMs := 1700000000000, year := 2024 }

/-- Witness for the amended C5 at a concrete input. -/
theorem c5_amended_outer_boundary_witness :
    (capturePaymentF envC5w { orderId := "O1" }).1 =
      .error { status := 500
             , detail := "Internal server error: " ++
                 PyErr.str (.attributeError "\x27dict\x27 object has no attribute \x27id\x27")
             , headers := [] } :=
  (c5_amended_outer_boundary envC5w { orderId := "O1" }).2
    (.attributeError "\x27dict\x27 object has no attribute \x27id\x27")
    [.tokenRequest, .captureRequest "O1"] rfl

/-! ## C8 — missing orderId (confirmed) -/

/-- C8: an empty `orderId` (the handler-level form of a missing order
id) yields 400 "Order ID is required" and no outbound call of any kind
is made. -/
theorem c8_missing_order_id (env : Env) (req : CaptureRequest) (h : req.orderId = "") :
    capturePaymentF env req =
      (.error { status := 400, detail := "Order ID is required", headers := [] }, []) := by
  simp [capturePaymentF, capturePaymentBody, h]

/-- Environment for the C8 witness (its oracles are never consulted). -/
def envC8 : Env :=
  { supabaseModule := true, paypalClientId := "client", paypalSecret := "secret",
    supabaseUrl := "https://db.example", supabaseKey := "service-key",
    authOutcome := .timeout, captureOutcome := .timeout,
    storeInsert := fun _ => .error "unused",
    tsSec := 1700000000, tsMs := 1700000000000, year := 2024 }

/-- Witness for C8 at a concrete input. -/
theorem c8_missing_order_id_witness :
    capturePaymentF envC8 { orderId := "" } =
      (.error { status := 400, detail := "Order ID is required", headers := [] }, []) :=
  c8_missing_order_id envC8 { orderId := "" } rfl

/-! ## C9 — the Field Mapper is pure and deterministic (confirmed)

In the embedding the mapper is a pure function of `(order, status)`, so
re-applying it to the same raw response trivially yields the same
result; the non-trivial content is that the raw response is preserved in
`fullResponse`, so re-running the mapper on the response embedded in its
own output reproduces the output exactly. -/

/-- C9: re-applying the mapper to the raw response carried inside a
successful result reproduces that result. -/
theorem c9_mapper_deterministic (order status : Json) (pd : PaymentDetails)
    (h : extractPaymentDetails order status = .ok pd) :
    extractPaymentDetails pd.fullResponse status = .ok pd := by
  rw [extract_ok_fullResponse order status pd h]
  exact h

/-- The mapper's output on the empty object. -/
def pdEmptyC9 : PaymentDetails :=
  { orderId := Json.str "", captureId := Json.str "", transactionId := Json.str ""
  , status := Json.str "COMPLETED"
  , amount := { value := Json.str "0", currency := Json.str "USD" }
  , payer := { payerId := Json.str "", email := Json.str "", name := "" }
  , createTime := Json.str "", updateTime := Json.str "", fullResponse := Json.obj [] }

/-- Witness for C9 at a concrete input. -/
theorem c9_mapper_deterministic_witness :
    extractPaymentDetails pdEmptyC9.fullResponse (Json.str "COMPLETED") = .ok pdEmptyC9 :=
  c9_mapper_deterministic (Json.obj []) (Json.str "COMPLETED") pdEmptyC9 rfl

/-! ## C3 — amended fallback rule -/

/-- A successful amount-field read equals the total amended rule. -/
theorem getAmountField_ok_amended (capture pu : Json) (key dflt : String) (v : Json)
    (h : getAmountField capture pu key dflt = .ok v) :
    v = amendedAmountField capture pu key dflt := by
  unfold getAmountField at h
  unfold amendedAmountField
  by_cases hc : capture.isDict
  · simp only [hc, if_true] at h ⊢
    rcases ha : capture.getD "amount" (Json.obj []) with _ | b | n | s | es | afs <;>
      simp [ha, pyGet] at h ⊢ <;> simp [h]
  · simp only [hc] at h ⊢
    by_cases hp : pu.isDict
    · simp only [hp, if_true, if_false, Bool.false_eq_true] at h ⊢
      rcases ha : pu.getD "amount" (Json.obj []) with _ | b | n | s | es | afs <;>
        simp [ha, pyGet] at h ⊢ <;> simp [h]
    · simp only [hp, Bool.false_eq_true, if_false] at h ⊢
      simp at h
      simp [h]

/-- C3 amended: for every capture response on which extraction succeeds,
`amount.value` is the traversed capture's `amount.value` (default `"0"`)
whenever that capture is a dict — with no fallback to the purchase
unit's amount in that case — and the purchase unit's `amount.value`
(default `"0"`) only when the capture is not a dict; likewise for
`currency_code` with default `"USD"`. -/
theorem c3_amended_amount_fallback (order st : Json) (pd : PaymentDetails) (pu capture : Json)
    (hpu : getPurchaseUnit order = .ok pu)
    (hc : getCapture pu = .ok capture)
    (hex : extractPaymentDetails order st = .ok pd) :
    pd.amount.value = amendedAmountField capture pu "value" "0" ∧
      pd.amount.currency = amendedAmountField capture pu "currency_code" "USD" := by
  unfold extractPaymentDetails at hex
  simp only [hpu] at hex
  simp only [hc] at hex
  rcases hav : getAmountField capture pu "value" "0" with e | av
  · simp [hav] at hex
  simp only [hav] at hex
  rcases hac : getAmountField capture pu "currency_code" "USD" with e | ac
  · simp [hac] at hex
  simp only [hac] at hex
  rcases hpn : getPayerName (if order.isDict then order.getD "payer" (Json.obj []) else Json.obj []) with e | pn
  · simp [hpn] at hex
  simp only [hpn, Except.ok.injEq] at hex
  subst hex
  exact ⟨getAmountField_ok_amended capture pu "value" "0" av hav,
         getAmountField_ok_amended capture pu "currency_code" "USD" ac hac⟩

/-- The mapper's output on the empty object (C3 witness data). -/
def pdC3w : PaymentDetails :=
  { orderId := Json.str "", captureId := Json.str "", transactionId := Json.str ""
  , status := Json.str "COMPLETED"
  , amount := { value := Json.str "0", currency := Json.str "USD" }
  , payer := { payerId := Json.str "", email := Json.str "", name := "" }
  , createTime := Json.str "", updateTime := Json.str "", fullResponse := Json.obj [] }

/-- Witness for the amended C3 at a concrete input. -/
theorem c3_amended_amount_fallback_witness :
    pdC3w.amount.value = amendedAmountField (Json.obj []) (Json.obj []) "value" "0" ∧
      pdC3w.amount.currency = amendedAmountField (Json.obj []) (Json.obj []) "currency_code" "USD" :=
  c3_amended_amount_fallback (Json.obj []) (Json.str "COMPLETED") pdC3w (Json.obj []) (Json.obj [])
    rfl rfl rfl

/-! ## C7 — missing-column fallback (confirmed) -/

/-- C7: when the full insert fails with an error whose lowercased text
contains "column" or "pgrst204", exactly one retry with the minimal
record is issued (its keys are the nine standard columns plus `user_id`
exactly when a truthy `userId` was provided, omitting the PayPal and
contact columns); with neither marker there is no retry and the store
error propagates, to be swallowed one level up. -/
theorem c7_missing_column_fallback (env : Env) (dd : DonationData) (pd : PaymentDetails) (m : String)
    (hMod : env.supabaseModule = true)
    (hUrl : (env.supabaseUrl == "") = false)
    (hKey : (env.supabaseKey == "") = false)
    (hfull : env.storeInsert (fullRecord env dd pd) = .error m) :
    ((strContains (strLower m) "column" || strContains (strLower (strLower m)) "pgrst204") = true →
        (persistInner env dd pd).2 =
            [.insertDonation (fullRecord env dd pd), .insertDonation (minimalRecord env dd pd)] ∧
          (minimalRecord env dd pd).map Prod.fst =
            ["donation_id", "amount", "donor_name", "donation_type", "payment_id",
             "payment_method", "receipt_number", "status", "currency"]
              ++ (if optStrTruthy dd.userId then ["user_id"] else [])) ∧
      ((strContains (strLower m) "column" || strContains (strLower (strLower m)) "pgrst204") = false →
        (persistInner env dd pd).2 = [.insertDonation (fullRecord env dd pd)] ∧
          (persistInner env dd pd).1 = .error (.py (.storeError m)) ∧
          (persistStep env dd pd).1 = none) := by
  constructor
  · intro hmark
    constructor
    · unfold persistInner
      simp only [hMod, hUrl, hKey, hfull, hmark, Bool.not_true, Bool.false_or, Bool.or_self,
        if_true, if_false, Bool.false_eq_true]
      rcases hmin : env.storeInsert (minimalRecord env dd pd) with m2 | d2 <;> simp [hmin]
    · unfold minimalRecord baseDonationFields optField optStrTruthy
      rcases dd.userId with _ | u
      · simp
      · by_cases hu : u.isEmpty <;> simp [hu]
  · intro hmark
    unfold persistStep persistInner
    simp [hMod, hUrl, hKey, hfull, hmark]

/-- Environment for the C7 witness: the store always rejects with a
missing-column error. -/
def envC7 : Env :=
  { supabaseModule := true, paypalClientId := "client", paypalSecret := "secret",
    supabaseUrl := "https://db.example", supabaseKey := "service-key",
    authOutcome := .timeout, captureOutcome := .timeout,
    storeInsert := fun _ => .error "Could not find the paypal_order_id column of donations",
    tsSec := 1700000000, tsMs := 1700000000000, year := 2024 }

/-- Donation input for the C7 witness. -/
def ddC7 : DonationData :=
  { amount := 500, donorName := "Asha", donationType := "general", userId := some "U9" }

/-- Payment details for the C7 witness. -/
def pdC7 : PaymentDetails :=
  { orderId := Json.str "ORD", captureId := Json.str "CAP", transactionId := Json.str "CAP"
  , status := Json.str "COMPLETED"
  , amount := { value := Json.str "500.00", currency := Json.str "INR" }
  , payer := { payerId := Json.str "P1", email := Json.str "a@b.com", name := "Asha K" }
  , createTime := Json.str "", updateTime := Json.str "", fullResponse := Json.obj [] }

/-- Witness for C7 at a concrete input (marker branch). -/
theorem c7_missing_column_fallback_witness :
    (persistInner envC7 ddC7 pdC7).2 =
        [.insertDonation (fullRecord envC7 ddC7 pdC7), .insertDonation (minimalRecord envC7 ddC7 pdC7)] ∧
      (minimalRecord envC7 ddC7 pdC7).map Prod.fst =
        ["donation_id", "amount", "donor_name", "donation_type", "payment_id",
         "payment_method", "receipt_number", "status", "currency"]
          ++ (if optStrTruthy ddC7.userId then ["user_id"] else []) :=
  (c7_missing_column_fallback envC7 ddC7 pdC7
      "Could not find the paypal_order_id column of donations" rfl rfl rfl rfl).1 rfl

/-! ## C4 — persistence failure never fails the request (confirmed) -/

/-- When the store rejects every insert, the persistence block always
raises (configuration failure, fallback failure, or re-raise). -/
theorem persistInner_all_inserts_fail (env : Env) (dd : DonationData) (pd : PaymentDetails)
    (hstore : ∀ r, ∃ m, env.storeInsert r = .error m) :
    ∃ exc t, persistInner env dd pd = (.error exc, t) := by
  unfold persistInner
  split
  · exact ⟨_, _, rfl⟩
  split
  · exact ⟨_, _, rfl⟩
  rcases hstore (fullRecord env dd pd) with ⟨m, hm1⟩
  simp only [hm1]
  split
  · rcases hstore (minimalRecord env dd pd) with ⟨m2, hm2⟩
    simp only [hm2]
    exact ⟨_, _, rfl⟩
  · exact ⟨_, _, rfl⟩

/-- When the store rejects every insert, the swallowed persistence step
yields no donation record. -/
theorem persistStep_all_inserts_fail (env : Env) (dd : DonationData) (pd : PaymentDetails)
    (hstore : ∀ r, ∃ m, env.storeInsert r = .error m) :
    (persistStep env dd pd).1 = none := by
  rcases persistInner_all_inserts_fail env dd pd hstore with ⟨exc, t, ht⟩
  simp [persistStep, ht]

/-- C4: when the capture succeeded with status "COMPLETED", extraction
succeeded, and donation data is present, a store that rejects every
insert still leaves the endpoint returning HTTP 200 with `success =
true`, the extracted payment details unchanged, `donation = none` and
the fixed success message; the persistence error is never surfaced. -/
theorem c4_persistence_failure_swallowed (env : Env) (req : CaptureRequest)
    (dd : DonationData) (od : Json) (pd : PaymentDetails) (tr : List ExtCall)
    (hdd : req.donationData = some dd)
    (hOrd : (req.orderId == "") = false)
    (hMod : env.supabaseModule = true)
    (hCid : (env.paypalClientId == "") = false)
    (hSec : (env.paypalSecret == "") = false)
    (hrun : runPaypalSection env req.orderId = (.ok (od, Json.str "COMPLETED"), tr))
    (hex : extractPaymentDetails od (Json.str "COMPLETED") = .ok pd)
    (hstore : ∀ r, ∃ m, env.storeInsert r = .error m) :
    (capturePaymentF env req).1 =
      .ok { success := true, payment := pd, donation := none
          , message := "Payment captured successfully" } := by
  have hps := persistStep_all_inserts_fail env dd pd hstore
  rcases hp : persistStep env dd pd with ⟨dr, t2⟩
  rw [hp] at hps
  simp only at hps
  subst hps
  unfold capturePaymentF capturePaymentBody
  simp [hOrd, hMod, hCid, hSec, hrun, hdd, hex, hp, Json.eqStr]

/-- Environment for the C4 witness: capture completes, every insert
fails. -/
def envC4 : Env :=
  { supabaseModule := true, paypalClientId := "client", paypalSecret := "secret",
    supabaseUrl := "https://db.example", supabaseKey := "service-key",
    authOutcome := .resp 200 "authbody" (.ok (Json.obj [("access_token", Json.str "tok")])),
    captureOutcome := .resp 201 "capbody" (.ok (Json.obj [("status", Json.str "COMPLETED")])),
    storeInsert := fun _ => .error "insert failed",
    tsSec := 1700000000, tsMs := 1700000000000, year := 2024 }

/-- The order body of the C4 witness. -/
def odC4 : Json := Json.obj [("status", Json.str "COMPLETED")]

/-- The request of the C4 witness. -/
def reqC4 : CaptureRequest :=
  { orderId := "O1"
  , donationData := some { amount := 500, donorName := "Asha", donationType := "general" } }

/-- The extracted details of the C4 witness. -/
def pdC4w : PaymentDetails :=
  { orderId := Json.str "", captureId := Json.str "", transactionId := Json.str ""
  , status := Json.str "COMPLETED"
  , amount := { value := Json.str "0", currency := Json.str "USD" }
  , payer := { payerId := Json.str "", email := Json.str "", name := "" }
  , createTime := Json.str "", updateTime := Json.str "", fullResponse := odC4 }

/-- Witness for C4 at a concrete input. -/
theorem c4_persistence_failure_swallowed_witness :
    (capturePaymentF envC4 reqC4).1 =
      .ok { success := true, payment := pdC4w, donation := none
          , message := "Payment captured successfully" } :=
  c4_persistence_failure_swallowed envC4 reqC4
    { amount := 500, donorName := "Asha", donationType := "general" } odC4 pdC4w
    [.tokenRequest, .captureRequest "O1"]
    rfl rfl rfl rfl rfl rfl rfl (fun _ => ⟨"insert failed", rfl⟩)

/-! ## C6 — capped status for upstream capture errors (corrected) -/

/-- Python `+=` failures are `TypeError`s, caught by the tuple handler. -/
theorem pyAddStr_err_isVKT (v : Json) (sfx : String) (e : PyErr)
    (h : pyAddStr v sfx = .error e) : e.isVKT = true := by
  unfold pyAddStr at h
  split at h
  · exact absurd h (by simp)
  · simp only [Except.error.injEq] at h
    subst h
    rfl

/-- Python `str.join` failures are `TypeError`s, caught by the tuple handler. -/
theorem pyJoin_err_isVKT (sep : String) (items : List Json) (e : PyErr)
    (h : pyJoin sep items = .error e) : e.isVKT = true := by
  unfold pyJoin at h
  split at h
  · exact absurd h (by simp)
  · simp only [Except.error.injEq] at h
    subst h
    rfl

/-- Iteration failures are `TypeError`s, caught by the tuple handler. -/
theorem pyIter_err_isVKT (j : Json) (e : PyErr) (h : pyIter j = .error e) : e.isVKT = true := by
  cases j with
  | arr es => exact absurd h (by simp [pyIter])
  | str s => exact absurd h (by simp [pyIter])
  | obj fs => exact absurd h (by simp [pyIter])
  | null =>
    simp only [pyIter, Except.error.injEq] at h
    subst h
    rfl
  | bool b =>
    simp only [pyIter, Except.error.injEq] at h
    subst h
    rfl
  | num n =>
    simp only [pyIter, Except.error.injEq] at h
    subst h
    rfl

/-- On a dict detail entry, the loop body can only raise a `TypeError`. -/
theorem detailStrOf_dict_err_isVKT (d : Json) (e : PyErr) (hd : d.isDict = true)
    (h : detailStrOf d = .error e) : e.isVKT = true := by
  rcases d with _ | b | n | s | es | dfs <;> simp [Json.isDict] at hd
  unfold detailStrOf at h
  simp only [pyGet] at h
  split at h
  · split at h
    · split at h
      · rename_i e2 heq
        simp only [Except.error.injEq] at h
        subst h
        exact pyAddStr_err_isVKT _ _ _ heq
      · simp at h
    · simp at h
  · simp at h

/-- On a list of dict detail entries, the loop can only raise a
`TypeError`. -/
theorem detailListOf_err_isVKT (ds : List Json) (e : PyErr) (hall : ds.all Json.isDict = true)
    (h : detailListOf ds = .error e) : e.isVKT = true := by
  induction ds with
  | nil => simp [detailListOf] at h
  | cons d rest ih =>
    simp only [List.all_cons, Bool.and_eq_true] at hall
    unfold detailListOf at h
    rcases hds : detailStrOf d with e2 | od
    · simp only [hds, Except.error.injEq] at h
      subst h
      exact detailStrOf_dict_err_isVKT d _ hall.1 hds
    · simp only [hds] at h
      rcases od with _ | sv
      · exact ih hall.2 h
      · rcases hrest : detailListOf rest with e2 | r
        · simp only [hrest, Except.error.injEq] at h
          subst h
          exact ih hall.2 hrest
        · simp only [hrest] at h
          exact absurd h (by simp)

/-- The base message building can only raise a `TypeError`. -/
theorem detailMsgBase_err_isVKT (dp : List Json) (e : PyErr) (h : detailMsgBase dp = .error e) :
    e.isVKT = true := by
  unfold detailMsgBase at h
  split at h
  · simp at h
  · rcases hj : pyJoin " - " dp with e2 | j
    · simp only [hj, Except.error.injEq] at h
      subst h
      exact pyJoin_err_isVKT _ _ _ hj
    · simp [hj] at h

/-- On tame `details`, the detail-appending stage can only raise errors
caught by the tuple handler. -/
theorem detailMsgWithDetails_err_isVKT (dmA : String) (dts : Json) (e : PyErr)
    (ht : detailsTame dts = true) (h : detailMsgWithDetails dmA dts = .error e) :
    e.isVKT = true := by
  unfold detailMsgWithDetails at h
  split at h
  · rename_i htr
    rcases hdts : pyIter dts with e2 | items
    · simp only [hdts, Except.error.injEq] at h
      subst h
      exact pyIter_err_isVKT _ _ hdts
    · simp only [hdts] at h
      have hall : items.all Json.isDict = true := by
        cases dts <;> simp_all [detailsTame, pyIter]
      rcases hdl : detailListOf items with e2 | dl
      · simp only [hdl, Except.error.injEq] at h
        subst h
        exact detailListOf_err_isVKT _ _ hall hdl
      · simp only [hdl] at h
        split at h
        · simp at h
        · rcases hj : pyJoin "; " dl with e2 | j
          · simp only [hj, Except.error.injEq] at h
            subst h
            exact pyJoin_err_isVKT _ _ _ hj
          · simp [hj] at h
  · simp at h

/-- On a dict body with tame `details`, every exception of the message
building is caught by the `except (ValueError, KeyError, TypeError)`
handler. -/
theorem buildJsonErrMsg_err_isVKT (s : Nat) (text : String) (ed : Json) (e : PyErr)
    (hd : ed.isDict = true)
    (ht : detailsTame (ed.getD "details" (Json.arr [])) = true)
    (h : buildJsonErrMsg s text ed = .error e) : e.isVKT = true := by
  rcases ed with _ | b | n | st | es | efs <;> simp [Json.isDict] at hd
  unfold buildJsonErrMsg at h
  simp only [pyGet] at h
  split at h
  · rename_i e2 heq
    simp only [Except.error.injEq] at h
    subst h
    exact detailMsgBase_err_isVKT _ _ heq
  · rename_i dmA heq
    split at h
    · rename_i e2 heq2
      simp only [Except.error.injEq] at h
      subst h
      exact detailMsgWithDetails_err_isVKT _ _ _ ht heq2
    · simp at h

/-- A successfully built error message always carries the capped status
and no headers. -/
theorem buildJsonErrMsg_ok_shape (s : Nat) (text : String) (ed : Json) (h2 : HTTPError)
    (h : buildJsonErrMsg s text ed = .ok h2) : h2.status = min s 500 ∧ h2.headers = [] := by
  unfold buildJsonErrMsg at h
  split at h
  · simp at h
  · simp only [] at h
    repeat' split at h
    all_goals
      first
      | (simp only [Except.ok.injEq] at h
         subst h
         exact ⟨rfl, rfl⟩)
      | simp at h

/-- On a tame body, the non-2xx capture mapping always raises a typed
error with status `min(upstream, 500)` and no headers. -/
theorem captureFailureExc_capped (s : Nat) (text : String) (body : Except String Json)
    (ht : captureBodyTame body = true) :
    ∃ msg, captureFailureExc s text body =
      .http { status := min s 500, detail := msg, headers := [] } := by
  rcases body with m | ed
  · exact ⟨rawFallbackMsg s text, rfl⟩
  · simp only [captureBodyTame, Bool.and_eq_true] at ht
    rcases hb : buildJsonErrMsg s text ed with e | h2
    · have hv := buildJsonErrMsg_err_isVKT s text ed e ht.1 ht.2 hb
      refine ⟨rawFallbackMsg s text, ?_⟩
      unfold captureFailureExc
      simp only [hb, hv, if_true]
    · rcases buildJsonErrMsg_ok_shape s text ed h2 hb with ⟨h3, h4⟩
      refine ⟨h2.detail, ?_⟩
      unfold captureFailureExc
      simp only [hb]
      rcases h2 with ⟨st2, dt2, hd2⟩
      simp only at h3 h4
      subst h3
      subst h4
      rfl

/-- C6 amended: for every non-2xx capture response whose body either is
not valid JSON or parses to a JSON object with tame `details`, the
endpoint's error status is `min(upstream, 500)` — never above 500.  (On
non-object JSON bodies the message building raises an uncaught
`AttributeError` and the endpoint returns 400 instead, as the
counterexample shows.) -/
theorem c6_amended_capped_status (env : Env) (req : CaptureRequest)
    (s : Nat) (text : String) (body : Except String Json)
    (hOrd : (req.orderId == "") = false)
    (hMod : env.supabaseModule = true)
    (hCid : (env.paypalClientId == "") = false)
    (hSec : (env.paypalSecret == "") = false)
    (hAuth : env.authOutcome = .resp 200 "tokenbody" (.ok (Json.obj [("access_token", Json.str "tok")])))
    (hCap : env.captureOutcome = .resp s text body)
    (hS : httpOk s = false)
    (ht : captureBodyTame body = true) :
    ∃ msg, (capturePaymentF env req).1 =
      .error { status := min s 500, detail := msg, headers := [] } := by
  rcases captureFailureExc_capped s text body ht with ⟨msg, hcf⟩
  refine ⟨msg, ?_⟩
  have h1 : pyGet (Json.obj [("access_token", Json.str "tok")]) "access_token" Json.null =
      .ok (Json.str "tok") := rfl
  have h2 : (Json.str "tok").truthy = true := rfl
  have h3 : httpOk 200 = true := rfl
  unfold capturePaymentF capturePaymentBody runPaypalSection paypalSectionBody
  simp [hOrd, hMod, hCid, hSec, hAuth, hCap, hS, hcf, h1, h2, h3]

/-- Environment for the C6 counterexample: the capture call fails with
HTTP 503 and a JSON body that parses to an array. -/
def envC6 : Env :=
  { supabaseModule := true, paypalClientId := "client", paypalSecret := "secret",
    supabaseUrl := "https://db.example", supabaseKey := "service-key",
    authOutcome := .resp 200 "tokenbody" (.ok (Json.obj [("access_token", Json.str "tok")])),
    captureOutcome := .resp 503 "[]" (.ok (Json.arr [])),
    storeInsert := fun _ => .error "unused",
    tsSec := 1700000000, tsMs := 1700000000000, year := 2024 }

/-- C6 counterexample: a 503 capture error whose body parses as JSON
(an array) yields status 400 — `error_data.get` raises `AttributeError`,
which the tuple handler does not catch — not `min(503, 500) = 500` as
the claim requires. -/
theorem c6_counterexample_array_body :
    (capturePaymentF envC6 { orderId := "O1" }).1 =
        .error { status := 400
               , detail := "PayPal capture failed: \x27list\x27 object has no attribute \x27get\x27"
               , headers := [] } ∧
      min 503 500 = 500 := ⟨rfl, rfl⟩

/-- Environment for the C6 witness: a 503 capture error with a non-JSON
body. -/
def envC6w : Env :=
  { supabaseModule := true, paypalClientId := "client", paypalSecret := "secret",
    supabaseUrl := "https://db.example", supabaseKey := "service-key",
    authOutcome := .resp 200 "tokenbody" (.ok (Json.obj [("access_token", Json.str "tok")])),
    captureOutcome := .resp 503 "upstream exploded" (.error "Expecting value: line 1 column 1 (char 0)"),
    storeInsert := fun _ => .error "unused",
    tsSec := 1700000000, tsMs := 1700000000000, year := 2024 }

/-- Witness for the amended C6 at a concrete input. -/
theorem c6_amended_capped_status_witness :
    ∃ msg, (capturePaymentF envC6w { orderId := "O1" }).1 =
      .error { status := min 503 500, detail := msg, headers := [] } :=
  c6_amended_capped_status envC6w { orderId := "O1" } 503 "upstream exploded"
    (.error "Expecting value: line 1 column 1 (char 0)") rfl rfl rfl rfl rfl rfl rfl rfl

/-! ## C10 — success responses (confirmed) -/

/-- Inversion: a PayPal section returning `(order, status)` did so from
a 2xx capture response whose body parsed, and `status` is the body's
`status` field (default `"UNKNOWN"`). -/
theorem paypalSectionBody_ok_inv (env : Env) (oid : String) (od stj : Json) (t : List ExtCall)
    (hb : paypalSectionBody env oid = (.ok (od, stj), t)) :
    ∃ s text, env.captureOutcome = .resp s text (.ok od) ∧ httpOk s = true ∧
      pyGet od "status" (Json.str "UNKNOWN") = .ok stj := by
  unfold paypalSectionBody at hb
  rcases hao : env.authOutcome with _ | m | m | ⟨aS, aT, aB⟩ <;> simp only [hao] at hb
  · simp at hb
  · simp at hb
  · simp at hb
  by_cases hok : httpOk aS
  case neg => simp [hok] at hb
  simp only [hok, Bool.not_true, Bool.false_eq_true, if_false] at hb
  rcases aB with m | ad
  · simp at hb
  rcases hat : pyGet ad "access_token" Json.null with e | tok <;> simp only [hat] at hb
  · simp at hb
  by_cases htok : tok.truthy
  case neg => simp [htok] at hb
  simp only [htok, Bool.not_true, Bool.false_eq_true, if_false] at hb
  rcases hco : env.captureOutcome with _ | m | m | ⟨cS, cT, cB⟩ <;> simp only [hco] at hb
  · simp at hb
  · simp at hb
  · simp at hb
  by_cases hcok : httpOk cS
  case neg => simp [hcok] at hb
  simp only [hcok, Bool.not_true, Bool.false_eq_true, if_false] at hb
  rcases cB with m | cod
  · simp at hb
  rcases hst : pyGet cod "status" (Json.str "UNKNOWN") with e | st2 <;> simp only [hst] at hb
  · simp at hb
  simp only [Prod.mk.injEq, Except.ok.injEq] at hb
  obtain ⟨⟨hcod, hstj⟩, ht2⟩ := hb
  subst hcod
  subst hstj
  exact ⟨cS, cT, rfl, hcok, hst⟩

/-- The same inversion through the section's exception handlers. -/
theorem runPaypalSection_ok_inv (env : Env) (oid : String) (od stj : Json) (t : List ExtCall)
    (h : runPaypalSection env oid = (.ok (od, stj), t)) :
    ∃ s text, env.captureOutcome = .resp s text (.ok od) ∧ httpOk s = true ∧
      pyGet od "status" (Json.str "UNKNOWN") = .ok stj := by
  unfold runPaypalSection at h
  rcases hb : paypalSectionBody env oid with ⟨r, t2⟩
  rcases r with exc | ⟨od2, stj2⟩
  · rcases exc with e | e
    · simp [hb] at h
    · simp only [hb] at h
      split at h <;> simp at h
  · simp only [hb, Prod.mk.injEq, Except.ok.injEq] at h
    obtain ⟨⟨h1a, h1b⟩, h2⟩ := h
    subst h1a
    subst h1b
    subst h2
    exact paypalSectionBody_ok_inv env oid _ _ _ hb

/-- C10: every 200 response of the endpoint has `success = true` and the
fixed success message (`success = false` is never returned), and such a
response is only produced when the 2xx capture body parsed to a dict
whose `status` field reads `"COMPLETED"`; a body with no `status` field
reads `"UNKNOWN"` and therefore can never yield a success response. -/
theorem c10_success_only_when_completed (env : Env) (req : CaptureRequest)
    (resp : CaptureResponse) (tr : List ExtCall)
    (h : capturePaymentF env req = (.ok resp, tr)) :
    resp.success = true ∧ resp.message = "Payment captured successfully" ∧
      (∃ s text od, env.captureOutcome = .resp s text (.ok od) ∧ httpOk s = true ∧
        pyGet od "status" (Json.str "UNKNOWN") = .ok (Json.str "COMPLETED")) ∧
      (∀ fs : List (String × Json), fs.lookup "status" = none →
        pyGet (Json.obj fs) "status" (Json.str "UNKNOWN") = .ok (Json.str "UNKNOWN")) := by
  have hlast : ∀ fs : List (String × Json), fs.lookup "status" = none →
      pyGet (Json.obj fs) "status" (Json.str "UNKNOWN") = .ok (Json.str "UNKNOWN") := by
    intro fs hfs
    simp [pyGet, hfs]
  unfold capturePaymentF at h
  rcases hbody : capturePaymentBody env req with ⟨r, t⟩
  rcases r with exc | r2
  · rcases exc with e | e <;> simp [hbody] at h
  · simp only [hbody, Prod.mk.injEq, Except.ok.injEq] at h
    obtain ⟨hr, ht⟩ := h
    subst hr
    subst ht
    unfold capturePaymentBody at hbody
    split at hbody
    · simp at hbody
    split at hbody
    · simp at hbody
    split at hbody
    · simp at hbody
    split at hbody
    · simp at hbody
    rename_i od stj t3 heqsec
    split at hbody
    · simp at hbody
    rename_i hstat
    have hstat2 : stj.eqStr "COMPLETED" = true := by
      simpa using hstat
    have hstc := Json.eqStr_true hstat2
    subst hstc
    rcases runPaypalSection_ok_inv env req.orderId od (Json.str "COMPLETED") t3 heqsec with
      ⟨s, text, hcap, hok, hstatus⟩
    split at hbody
    · simp at hbody
    rename_i pd heqex
    split at hbody
    · -- no donation data
      simp only [Prod.mk.injEq, Except.ok.injEq] at hbody
      obtain ⟨hresp, _⟩ := hbody
      subst hresp
      exact ⟨rfl, rfl, ⟨s, text, od, hcap, hok, hstatus⟩, hlast⟩
    · -- donation data present
      rename_i dd hdd
      rcases hps : persistStep env dd pd with ⟨dr, t2⟩
      rw [hps] at hbody
      simp only [Prod.mk.injEq, Except.ok.injEq] at hbody
      obtain ⟨hresp, _⟩ := hbody
      subst hresp
      exact ⟨rfl, rfl, ⟨s, text, od, hcap, hok, hstatus⟩, hlast⟩

/-- Environment for the C10 witness: a successful capture. -/
def envC10 : Env :=
  { supabaseModule := true, paypalClientId := "client", paypalSecret := "secret",
    supabaseUrl := "https://db.example", supabaseKey := "service-key",
    authOutcome := .resp 200 "authbody" (.ok (Json.obj [("access_token", Json.str "tok")])),
    captureOutcome := .resp 200 "capbody" (.ok (Json.obj [("status", Json.str "COMPLETED")])),
    storeInsert := fun _ => .error "unused",
    tsSec := 1700000000, tsMs := 1700000000000, year := 2024 }

/-- The success response of the C10 witness. -/
def respC10 : CaptureResponse :=
  { success := true
  , payment :=
    { orderId := Json.str "", captureId := Json.str "", transactionId := Json.str ""
    , status := Json.str "COMPLETED"
    , amount := { value := Json.str "0", currency := Json.str "USD" }
    , payer := { payerId := Json.str "", email := Json.str "", name := "" }
    , createTime := Json.str "", updateTime := Json.str ""
    , fullResponse := Json.obj [("status", Json.str "COMPLETED")] }
  , donation := none
  , message := "Payment captured successfully" }

/-- Witness for C10 at a concrete input. -/
theorem c10_success_only_when_completed_witness :
    respC10.success = true ∧ respC10.message = "Payment captured successfully" ∧
      (∃ s text od, envC10.captureOutcome = .resp s text (.ok od) ∧ httpOk s = true ∧
        pyGet od "status" (Json.str "UNKNOWN") = .ok (Json.str "COMPLETED")) ∧
      (∀ fs : List (String × Json), fs.lookup "status" = none →
        pyGet (Json.obj fs) "status" (Json.str "UNKNOWN") = .ok (Json.str "UNKNOWN")) :=
  c10_success_only_when_completed envC10 { orderId := "O1" } respC10
    [.tokenRequest, .captureRequest "O1"] rfl

/-! ## C2 — amended totality on well-shaped responses -/

/-- A well-shaped payer slot never makes the name extraction raise. -/
theorem getPayerName_wf (p : Json) (h : wfPayer p = true) : ∃ pn, getPayerName p = .ok pn := by
  rcases p with _ | b | n | s | es | pfs
  · exact ⟨"", by simp [getPayerName, Json.isDict]⟩
  · exact ⟨"", by simp [getPayerName, Json.isDict]⟩
  · exact ⟨"", by simp [getPayerName, Json.isDict]⟩
  · exact ⟨"", by simp [getPayerName, Json.isDict]⟩
  · exact ⟨"", by simp [getPayerName, Json.isDict]⟩
  · unfold wfPayer at h
    rcases hlk : pfs.lookup "name" with _ | v
    · refine ⟨"", ?_⟩
      simp [getPayerName, Json.isDict, Json.getD, hlk, Json.truthy]
    · simp only [hlk, Option.getD_some] at h
      by_cases htr : v.truthy = true
      · have hd : v.isDict = true := by
          simp only [Bool.or_eq_true, Bool.not_eq_true'] at h
          rcases h with h | h
          · rw [htr] at h
            exact absurd h (by simp)
          · exact h
        rcases v with _ | b | n | s | es | nfs <;> simp [Json.isDict] at hd
        refine ⟨pyStrip ((((nfs.lookup "given_name").getD (Json.str "")).pyStr) ++ " "
          ++ (((nfs.lookup "surname").getD (Json.str "")).pyStr)), ?_⟩
        simp [getPayerName, Json.isDict, Json.getD, hlk, htr, pyGet]
      · simp only [Bool.not_eq_true] at htr
        refine ⟨"", ?_⟩
        simp [getPayerName, Json.isDict, Json.getD, hlk, htr]

/-- C2 amended: the Field Mapper never raises on a well-shaped capture
response (nested fields, when present, of the expected shape), and when
no source amount fields are present the extracted amount is the default
`"0"` / `"USD"`.  (On ill-shaped responses such as
`\x7b"purchase_units": []\x7d` it raises, as the counterexample shows,
and the endpoint maps this to a 500 extraction error.) -/
theorem c2_amended_wellformed_total (order st : Json) (h : wellFormedOrder order = true) :
    ∃ pd, extractPaymentDetails order st = .ok pd ∧
      (noSourceAmount order = true →
        pd.amount.value = Json.str "0" ∧ pd.amount.currency = Json.str "USD") := by
  rcases order with _ | b | n | s | es | fs <;> simp [wellFormedOrder] at h
  obtain ⟨hpu, hpayer⟩ := h
  rcases hv : (fs.lookup "purchase_units").getD (Json.arr [Json.obj []]) with _ | _ | _ | _ | es2 | _ <;>
    rw [hv] at hpu <;> try simp at hpu
  rcases es2 with _ | ⟨u, rest⟩
  · simp at hpu
  simp at hpu
  unfold wfPU at hpu
  rw [Bool.and_eq_true] at hpu
  obtain ⟨hud, hcapm⟩ := hpu
  rcases u with _ | _ | _ | _ | _ | ufs <;> simp [Json.isDict] at hud
  simp only [Json.getD] at hcapm
  rcases hpay : (ufs.lookup "payments").getD (Json.obj []) with _ | _ | _ | _ | _ | pfs <;>
    rw [hpay] at hcapm <;> try simp at hcapm
  rcases hcaps : (pfs.lookup "captures").getD (Json.arr [Json.obj []]) with _ | _ | _ | _ | cs2 | _ <;>
    rw [hcaps] at hcapm <;> try simp at hcapm
  rcases cs2 with _ | ⟨c, crest⟩
  · simp at hcapm
  simp at hcapm
  unfold wfCaptureElem at hcapm
  rw [Bool.and_eq_true] at hcapm
  obtain ⟨hcd, hca⟩ := hcapm
  rcases c with _ | _ | _ | _ | _ | cfs <;> simp [Json.isDict] at hcd
  unfold wfAmountSlot at hca
  simp only [Json.getD] at hca
  rcases hamt : (cfs.lookup "amount").getD (Json.obj []) with _ | _ | _ | _ | _ | afs <;>
    rw [hamt] at hca <;> try simp at hca
  have hgpu : getPurchaseUnit (Json.obj fs) = .ok (Json.obj ufs) := by
    simp [getPurchaseUnit, Json.isDict, Json.getD, hv, pySub0]
  have hgc : getCapture (Json.obj ufs) = .ok (Json.obj cfs) := by
    simp only [getCapture, Json.isDict, if_true, Json.getD, hpay, pyGet, hcaps, pySub0]
  have hav : getAmountField (Json.obj cfs) (Json.obj ufs) "value" "0" =
      .ok ((afs.lookup "value").getD (Json.str "0")) := by
    simp only [getAmountField, Json.isDict, if_true, Json.getD, hamt, pyGet]
  have hac : getAmountField (Json.obj cfs) (Json.obj ufs) "currency_code" "USD" =
      .ok ((afs.lookup "currency_code").getD (Json.str "USD")) := by
    simp only [getAmountField, Json.isDict, if_true, Json.getD, hamt, pyGet]
  obtain ⟨pn, hpn⟩ := getPayerName_wf _ hpayer
  unfold extractPaymentDetails
  simp only [hgpu, hgc, Json.isDict, if_true, Json.getD, hav, hac, hpn]
  refine ⟨_, rfl, ?_⟩
  intro hns
  unfold noSourceAmount at hns
  simp only [hv, Json.getD, hpay, hcaps, Bool.and_eq_true] at hns
  obtain ⟨hns1, hns2⟩ := hns
  unfold amountKeysAbsent at hns2
  simp only [Json.getD, hamt, Bool.and_eq_true, Option.isNone_iff_eq_none] at hns2
  obtain ⟨hvn, hcn⟩ := hns2
  constructor
  · simp [hvn]
  · simp [hcn]

/-- Witness for the amended C2 at the empty object. -/
theorem c2_amended_wellformed_total_witness :
    ∃ pd, extractPaymentDetails (Json.obj []) (Json.str "COMPLETED") = .ok pd ∧
      (noSourceAmount (Json.obj []) = true →
        pd.amount.value = Json.str "0" ∧ pd.amount.currency = Json.str "USD") :=
  c2_amended_wellformed_total (Json.obj []) (Json.str "COMPLETED") rfl
